import Mathlib

/-!
Verification of the retrieval-and-decision pipeline of the research paper
intelligence system. The definitions below are shallow embeddings of the
Python source under `backend/app`: the intent classifier
(`services/intent_classifier.py`), the HITL sufficiency gates
(`services/hitl_gate.py`, `agents/evidence_retrieval.py`), hybrid retrieval
with RRF fusion (`db/qdrant_client.py`), the synthesizer confidence heuristic
(`agents/analysis_synthesis.py`) and the guardrails output validator
(`services/guardrails_service.py`). Python floats are modelled as rationals,
Python strings as Lean strings (ASCII lower-casing), dicts and sets by lists
with explicit dedup where the counting semantics matter.
-/

namespace RPIS

/-- Lower-case a string character by character, modelling Python
`str.lower()` on the ASCII range. -/
def toLowerStr (s : String) : String :=
  String.mk (s.data.map Char.toLower)

/-- Whether `kw` is a prefix of `text`, on character lists. -/
def isPrefixCh : List Char → List Char → Bool
  | [], _ => true
  | _ :: _, [] => false
  | c :: cs, d :: ds => c == d && isPrefixCh cs ds

/-- Whether `kw` occurs as a contiguous substring of `text`, modelling the
Python `kw in text` operator on strings. -/
def containsSub : List Char → List Char → Bool
  | [], kw => isPrefixCh kw []
  | c :: rest, kw => isPrefixCh kw (c :: rest) || containsSub rest kw

/-- Python `sub in s` (substring containment). -/
def strContains (s sub : String) : Bool :=
  containsSub s.data sub.data

theorem isPrefixCh_append (kw x y : List Char) (h : isPrefixCh kw x = true) :
    isPrefixCh kw (x ++ y) = true := by
  induction kw generalizing x with
  | nil => simp [isPrefixCh]
  | cons c cs ih =>
    cases x with
    | nil => simp [isPrefixCh] at h
    | cons d ds =>
      simp only [isPrefixCh, Bool.and_eq_true] at h ⊢
      exact ⟨h.1, ih ds (by simpa using h.2)⟩

theorem containsSub_append_left (x y kw : List Char)
    (h : containsSub x kw = true) : containsSub (x ++ y) kw = true := by
  induction x with
  | nil =>
    rw [containsSub] at h
    cases kw with
    | nil =>
      cases y with
      | nil => simp [containsSub, isPrefixCh]
      | cons c cs => simp [containsSub, isPrefixCh]
    | cons c cs => simp [isPrefixCh] at h
  | cons d ds ih =>
    rw [containsSub] at h
    rw [List.cons_append, containsSub]
    rcases Bool.or_eq_true_iff.mp h with hp | hr
    · exact Bool.or_eq_true_iff.mpr (Or.inl (isPrefixCh_append kw (d :: ds) y hp))
    · exact Bool.or_eq_true_iff.mpr (Or.inr (ih hr))

/-- Substring containment survives appending on the right. -/
theorem strContains_append_left (a b sub : String)
    (h : strContains a sub = true) : strContains (a ++ b) sub = true := by
  have hd : (a ++ b).data = a.data ++ b.data := rfl
  unfold strContains at h ⊢
  rw [hd]
  exact containsSub_append_left a.data b.data sub.data h

/-! ## Intent classifier (`services/intent_classifier.py`) -/

/-- Keyword list of the `limitations` intent (INTENT_KEYWORDS). -/
def limitationsKeywords : List String :=
  ["limitation", "drawback", "shortcoming", "weakness", "problem with",
   "issue with", "challenge", "constraint", "restriction", "downside"]

/-- Keyword list of the `future_work` intent. -/
def futureWorkKeywords : List String :=
  ["future work", "future direction", "next step", "improve", "extension",
   "further research", "open question", "remaining"]

/-- Keyword list of the `research_gaps` intent. -/
def researchGapsKeywords : List String :=
  ["gap", "missing", "lack", "unexplored", "underexplored", "overlooked",
   "not addressed", "unresolved"]

/-- Keyword list of the `methodology` intent. -/
def methodologyKeywords : List String :=
  ["method", "approach", "technique", "algorithm", "how does", "how do",
   "procedure", "framework", "architecture", "design", "implementation"]

/-- Keyword list of the `experiments` intent. -/
def experimentsKeywords : List String :=
  ["experiment", "evaluation", "benchmark", "test", "dataset", "baseline",
   "ablation", "hyperparameter", "training", "fine-tun"]

/-- Keyword list of the `results` intent. -/
def resultsKeywords : List String :=
  ["result", "performance", "accuracy", "score", "metric", "outcome",
   "finding", "achieve", "outperform"]

/-- Keyword list of the `comparison` intent. -/
def comparisonKeywords : List String :=
  ["compare", "comparison", "versus", "vs", "differ", "better than",
   "worse than", "relative to", "against"]

/-- Keyword list of the `summary` intent. -/
def summaryKeywords : List String :=
  ["summary", "summarize", "overview", "what is", "explain", "describe",
   "introduction", "main idea", "key point", "tldr", "gist"]

/-- Keyword list of the `citation` intent. -/
def citationKeywords : List String :=
  ["reference", "cite", "citation", "source", "bibliography", "paper by"]

/-- INTENT_KEYWORDS, in source (insertion) order. -/
def INTENT_KEYWORDS : List (String × List String) :=
  [("limitations", limitationsKeywords),
   ("future_work", futureWorkKeywords),
   ("research_gaps", researchGapsKeywords),
   ("methodology", methodologyKeywords),
   ("experiments", experimentsKeywords),
   ("results", resultsKeywords),
   ("comparison", comparisonKeywords),
   ("summary", summaryKeywords),
   ("citation", citationKeywords)]

/-- INTENT_SECTION_MAP. -/
def INTENT_SECTION_MAP : List (String × List String) :=
  [("summary", ["Abstract", "Introduction"]),
   ("methodology", ["Methods"]),
   ("experiments", ["Experiments", "Results"]),
   ("results", ["Results"]),
   ("research_gaps", ["Discussion", "Limitations", "Future Work"]),
   ("limitations", ["Discussion", "Limitations"]),
   ("future_work", ["Future Work"]),
   ("comparison", ["Results", "Experiments"]),
   ("citation", ["References"]),
   ("general", ["Abstract", "Introduction", "Methods", "Results"])]

/-- INTENT_PRIORITY. -/
def INTENT_PRIORITY : List (String × Nat) :=
  [("citation", 100),
   ("limitations", 90),
   ("future_work", 85),
   ("research_gaps", 80),
   ("methodology", 70),
   ("experiments", 60),
   ("results", 50),
   ("comparison", 40),
   ("summary", 20),
   ("general", 10)]

/-- Priority of an intent name, with the same `0` default as
`self.intent_priority.get(i, 0)`. -/
def priorityOf (intent : String) : Nat :=
  ((INTENT_PRIORITY.find? (fun p => p.1 == intent)).map Prod.snd).getD 0

/-- Allowed sections of an intent (`INTENT_SECTION_MAP[...]`). -/
def sectionsFor (intent : String) : List String :=
  ((INTENT_SECTION_MAP.find? (fun p => p.1 == intent)).map Prod.snd).getD []

/-- Whether any keyword of a list occurs in the lower-cased query: the inner
loop of `IntentClassifier.classify` (one keyword match suffices, hence the
`break` in the source). -/
def intentMatches (query : String) (keywords : List String) : Bool :=
  keywords.any (fun kw => strContains (toLowerStr query) kw)

/-- All intents with at least one keyword hit, in table order: the
`matched_intents` set of `IntentClassifier.classify`. -/
def matchedIntents (query : String) : List String :=
  (INTENT_KEYWORDS.filter (fun p => intentMatches query p.2)).map Prod.fst

/-- `max(matched_intents, key=lambda i: self.intent_priority.get(i, 0))`:
the priorities in INTENT_PRIORITY are pairwise distinct, so the maximum is
independent of the iteration order of the Python set. -/
def bestIntent : List String → String
  | [] => "general"
  | i :: rest =>
    rest.foldl (fun acc j => if priorityOf acc < priorityOf j then j else acc) i

/-- Result of intent classification (`IntentResult`). -/
structure IntentResult where
  intent : String
  allowed_sections : List String
  confidence : ℚ
deriving DecidableEq

/-- `IntentClassifier.classify`. -/
def classify (query : String) : IntentResult :=
  let matched := matchedIntents query
  if matched.isEmpty then
    ⟨"general", sectionsFor "general", 1/2⟩
  else
    let best := bestIntent matched
    ⟨best, sectionsFor best, 1⟩

/-- The intent names of the keyword table, in table order. -/
def allIntentNames : List String := INTENT_KEYWORDS.map Prod.fst

set_option maxRecDepth 10000 in
/-- Among any collection of matched intent names that contains `limitations`
and avoids `citation`, the priority maximum is `limitations` (priority 90;
every other intent except `citation` has a strictly smaller priority). -/
theorem bestIntent_high_priority :
    ∀ l ∈ allIntentNames.sublists, "limitations" ∈ l → "citation" ∉ l →
      bestIntent l = "limitations" := by decide

/-- C5 (counterexample): the question
"Give a brief summary of the limitations in the references" contains a
`limitations` keyword ("limitation") and a `summary` keyword ("summary"),
yet `classify` does not return intent `limitations`: the `citation` keyword
"reference" also matches and `citation` has the higher priority (100 vs 90),
so the claim as stated is false. -/
theorem c5_counterexample :
    intentMatches "Give a brief summary of the limitations in the references"
        limitationsKeywords = true
    ∧ intentMatches "Give a brief summary of the limitations in the references"
        summaryKeywords = true
    ∧ (classify "Give a brief summary of the limitations in the references").intent
        ≠ "limitations" := by decide

/-- C5 (amended): for every question containing at least one `limitations`
keyword and at least one `summary` keyword, and containing no `citation`
keyword (the only intent with priority above `limitations`), `classify`
returns intent `limitations` — the higher priority number wins. -/
theorem c5_limitations_beats_summary (q : String)
    (hlim : intentMatches q limitationsKeywords = true)
    (hsum : intentMatches q summaryKeywords = true)
    (hcit : intentMatches q citationKeywords = false) :
    (classify q).intent = "limitations" := by
  have hmem : "limitations" ∈ matchedIntents q := by
    unfold matchedIntents
    refine List.mem_map.mpr ⟨("limitations", limitationsKeywords), ?_, rfl⟩
    refine List.mem_filter.mpr ⟨?_, ?_⟩
    · simp [INTENT_KEYWORDS]
    · simpa using hlim
  have hnot : "citation" ∉ matchedIntents q := by
    intro hc
    unfold matchedIntents at hc
    rcases List.mem_map.mp hc with ⟨p, hpf, hp1⟩
    rcases List.mem_filter.mp hpf with ⟨hpmem, hppred⟩
    simp only [INTENT_KEYWORDS, List.mem_cons, List.not_mem_nil] at hpmem
    rcases hpmem with h | h | h | h | h | h | h | h | h | h <;>
      (try subst h) <;> simp_all
  have hsubl : matchedIntents q ∈ allIntentNames.sublists := by
    rw [List.mem_sublists]
    exact (List.filter_sublist _).map Prod.fst
  have hne : (matchedIntents q).isEmpty = false := by
    cases hmm : matchedIntents q with
    | nil => rw [hmm] at hmem; cases hmem
    | cons a l => rfl
  simp only [classify, hne, Bool.false_eq_true, if_false]
  exact bestIntent_high_priority _ hsubl hmem hnot

/-- C5 (witness): "Give a brief summary of the limitations" satisfies the
hypotheses of the amended theorem and classifies as `limitations`. -/
theorem c5_witness :
    intentMatches "Give a brief summary of the limitations"
        limitationsKeywords = true
    ∧ intentMatches "Give a brief summary of the limitations"
        summaryKeywords = true
    ∧ intentMatches "Give a brief summary of the limitations"
        citationKeywords = false
    ∧ (classify "Give a brief summary of the limitations").intent
        = "limitations" :=
  ⟨by decide, by decide, by decide,
   c5_limitations_beats_summary "Give a brief summary of the limitations"
     (by decide) (by decide) (by decide)⟩

/-- C9: if no intent keyword occurs in the question, `classify` returns
intent `general`, confidence 0.5 and the default allowed sections
Abstract, Introduction, Methods, Results; if at least one intent keyword
occurs, it returns confidence 1.0. -/
theorem c9_general_fallback (q : String) :
    ((INTENT_KEYWORDS.all fun p => !intentMatches q p.2) = true →
      classify q =
        ⟨"general", ["Abstract", "Introduction", "Methods", "Results"], 1/2⟩)
    ∧ ((INTENT_KEYWORDS.any fun p => intentMatches q p.2) = true →
      (classify q).confidence = 1) := by
  constructor
  · intro h
    have hm : matchedIntents q = [] := by
      unfold matchedIntents
      have hf : INTENT_KEYWORDS.filter (fun p => intentMatches q p.2) = [] := by
        rw [List.filter_eq_nil_iff]
        intro a ha
        have := List.all_eq_true.mp h a ha
        simpa using this
      rw [hf]; rfl
    simp [classify, hm, sectionsFor, INTENT_SECTION_MAP]
  · intro h
    rcases List.any_eq_true.mp h with ⟨p, hp, hpred⟩
    have hmem : p.1 ∈ matchedIntents q :=
      List.mem_map.mpr ⟨p, List.mem_filter.mpr ⟨hp, hpred⟩, rfl⟩
    have hne : (matchedIntents q).isEmpty = false := by
      cases hmm : matchedIntents q with
      | nil => rw [hmm] at hmem; cases hmem
      | cons a l => rfl
    simp [classify, hne]

/-- C9 (witness): the empty question matches no keyword and falls back to
`general` with confidence 0.5; "What are the limitations of LoRA?" matches a
keyword and gets confidence 1.0. -/
theorem c9_witness :
    ((INTENT_KEYWORDS.all fun p => !intentMatches "" p.2) = true
      ∧ classify "" =
          ⟨"general", ["Abstract", "Introduction", "Methods", "Results"], 1/2⟩)
    ∧ ((INTENT_KEYWORDS.any fun p =>
          intentMatches "What are the limitations of LoRA?" p.2) = true
      ∧ (classify "What are the limitations of LoRA?").confidence = 1) :=
  ⟨⟨by decide, (c9_general_fallback "").1 (by decide)⟩,
   ⟨by decide,
    (c9_general_fallback "What are the limitations of LoRA?").2 (by decide)⟩⟩

/-! ## HITL gate (`services/hitl_gate.py`) -/

/-- Chunk metadata (`models/chunk.py`, `ChunkMetadata`). -/
structure ChunkMetadata where
  paper_id : String
  paper_title : String
  section_title : String
  page_start : Nat
  page_end : Nat
deriving DecidableEq

/-- A retrieval hit (`models/chunk.py`, `SearchResult`). -/
structure SearchResult where
  text : String
  score : ℚ
  metadata : ChunkMetadata
deriving DecidableEq

/-- HITL trigger threshold on the retrieved chunk count. -/
def MIN_CHUNKS_REQUIRED : Nat := 2

/-- HITL trigger threshold on the intent confidence. -/
def MIN_INTENT_CONFIDENCE : ℚ := 3/5

/-- Two-decimal rendering of a rational, modelling the Python format
specifier with two fractional digits used in the gate reason strings; the
decimal rounding of binary floats is approximated by rational rounding.
No theorem in this file depends on the rendered digits. -/
def fmt2 (c : ℚ) : String :=
  let n : Int := round (c * 100)
  let ip : Int := n / 100
  let fp : Nat := (n % 100).toNat
  toString ip ++ "." ++ (if fp < 10 then "0" else "") ++ toString fp

/-- Python `"; ".join(reasons)`. -/
def joinSemicolon : List String → String
  | [] => ""
  | [s] => s
  | s :: rest => s ++ "; " ++ joinSemicolon rest

theorem strContains_joinSemicolon_cons (m : String) (rest : List String)
    (t : String) (h : strContains m t = true) :
    strContains (joinSemicolon (m :: rest)) t = true := by
  cases rest with
  | nil => simpa [joinSemicolon] using h
  | cons a l =>
    show strContains (m ++ "; " ++ joinSemicolon (a :: l)) t = true
    exact strContains_append_left _ _ _ (strContains_append_left _ _ _ h)

/-- The reason string of the chunk-count rule:
`f"Insufficient evidence: only {chunks_count} chunks retrieved (minimum: {MIN_CHUNKS_REQUIRED})"`. -/
def chunksMsg (chunksCount : Nat) : String :=
  "Insufficient evidence: only " ++ toString chunksCount ++
    " chunks retrieved (minimum: " ++ toString MIN_CHUNKS_REQUIRED ++ ")"

/-- The reason string of the intent-confidence rule (the minimum 0.6 is
rendered by Python as "0.6"). -/
def confMsg (c : ℚ) : String :=
  "Low intent confidence: " ++ fmt2 c ++ " (minimum: 0.6)"

/-- The reason string of the paper-coverage rule. -/
def coverageMsg : String := "No paper coverage in retrieved evidence"

/-- Number of distinct non-empty paper ids among the retrieved chunks:
`len({chunk.metadata.paper_id for chunk in retrieved_chunks if chunk.metadata.paper_id})`. -/
def paperCoverage (retrievedChunks : List SearchResult) : Nat :=
  (((retrievedChunks.map fun c => c.metadata.paper_id).filter
    (fun pid => pid != "")).dedup).length

/-- Result of the HITL gate (`HITLDecision`). -/
structure HITLDecision where
  should_proceed : Bool
  requires_human_review : Bool
  reason : Option String
  intent : String
  intent_confidence : ℚ
  retrieved_chunks_count : Nat
  paper_coverage : Nat
deriving DecidableEq

/-- The reason list of `evaluate_hitl_gate`, collected in rule order. -/
def hitlReasons (intentConfidence : ℚ)
    (retrievedChunks : List SearchResult) : List String :=
  (if retrievedChunks.length < MIN_CHUNKS_REQUIRED
    then [chunksMsg retrievedChunks.length] else [])
  ++ (if intentConfidence < MIN_INTENT_CONFIDENCE
      then [confMsg intentConfidence] else [])
  ++ (if paperCoverage retrievedChunks = 0 then [coverageMsg] else [])

/-- `evaluate_hitl_gate`: escalate if any of the three rules fires; reasons
are joined with "; ". -/
def evaluateHitlGate (intent : String) (intentConfidence : ℚ)
    (retrievedChunks : List SearchResult) : HITLDecision :=
  let reasons := hitlReasons intentConfidence retrievedChunks
  let requiresReview := !reasons.isEmpty
  ⟨!requiresReview, requiresReview,
   if reasons.isEmpty then none else some (joinSemicolon reasons),
   intent, intentConfidence, retrievedChunks.length,
   paperCoverage retrievedChunks⟩

theorem hitlReasons_one_chunk (conf : ℚ) (chunks : List SearchResult)
    (h : chunks.length = 1) :
    ∃ rest, hitlReasons conf chunks = chunksMsg 1 :: rest := by
  unfold hitlReasons
  rw [h, if_pos (by decide : (1 : Nat) < MIN_CHUNKS_REQUIRED)]
  exact ⟨_, rfl⟩

/-- C6: with exactly one retrieved chunk the gate requires human review
regardless of the chunk score or the intent confidence, and the reason
contains "only 1 chunks retrieved (minimum: 2" — the chunk-count rule is the
first failing rule named, further failing reasons being concatenated after
it. -/
theorem c6_one_chunk_escalates (intent : String) (conf : ℚ)
    (chunks : List SearchResult) (h : chunks.length = 1) :
    (evaluateHitlGate intent conf chunks).requires_human_review = true
    ∧ (evaluateHitlGate intent conf chunks).should_proceed = false
    ∧ ∃ r, (evaluateHitlGate intent conf chunks).reason = some r
        ∧ strContains r "only 1 chunks retrieved (minimum: 2" = true := by
  have hbase : strContains (chunksMsg 1) "only 1 chunks retrieved (minimum: 2"
      = true := by decide
  obtain ⟨rest, hr⟩ := hitlReasons_one_chunk conf chunks h
  have e : evaluateHitlGate intent conf chunks =
      ⟨false, true, some (joinSemicolon (chunksMsg 1 :: rest)), intent, conf,
        chunks.length, paperCoverage chunks⟩ := by
    simp [evaluateHitlGate, hr]
  rw [e]
  exact ⟨rfl, rfl, joinSemicolon (chunksMsg 1 :: rest), rfl,
    strContains_joinSemicolon_cons _ _ _ hbase⟩

/-- C6 (witness): a single chunk with score 0.9 and full intent confidence
still escalates, with the chunk-count rule cited. -/
theorem c6_witness :
    ([(⟨"Sample chunk", 9/10, ⟨"p1", "Test Paper", "Methods", 1, 2⟩⟩ :
        SearchResult)].length = 1)
    ∧ ((evaluateHitlGate "methodology" 1
          [⟨"Sample chunk", 9/10, ⟨"p1", "Test Paper", "Methods", 1, 2⟩⟩]).requires_human_review = true
    ∧ (evaluateHitlGate "methodology" 1
          [⟨"Sample chunk", 9/10, ⟨"p1", "Test Paper", "Methods", 1, 2⟩⟩]).should_proceed = false
    ∧ ∃ r, (evaluateHitlGate "methodology" 1
          [⟨"Sample chunk", 9/10, ⟨"p1", "Test Paper", "Methods", 1, 2⟩⟩]).reason = some r
        ∧ strContains r "only 1 chunks retrieved (minimum: 2" = true) :=
  ⟨rfl, c6_one_chunk_escalates "methodology" 1
    [⟨"Sample chunk", 9/10, ⟨"p1", "Test Paper", "Methods", 1, 2⟩⟩] rfl⟩

/-! ## Evidence sufficiency (`agents/evidence_retrieval.py`) -/

/-- Text evidence chunk (`models/events.py`, `EvidenceChunk`). -/
structure EvidenceChunk where
  text : String
  paper_title : String
  section_title : String
  page_start : Nat
  page_end : Nat
  score : ℚ
deriving DecidableEq

/-- Image evidence (`models/events.py`, `ImageEvidence`). -/
structure ImageEvidence where
  image_id : String
  paper_title : String
  page_number : Nat
  caption : String
  image_type : String
  score : ℚ
deriving DecidableEq

/-- Coverage statistics (`_calculate_coverage` result). When no chunks were
retrieved the source dict omits the min/max keys; here they are 0. -/
structure CoverageStats where
  unique_papers : Nat
  unique_sections : Nat
  avg_text_score : ℚ
  avg_image_score : ℚ
  min_text_score : ℚ
  max_text_score : ℚ
  total_evidence : Nat
deriving DecidableEq

/-- Minimum of a score list, 0 when empty (the empty case is unreachable in
the source). -/
def minOfScores : List ℚ → ℚ
  | [] => 0
  | s :: rest => rest.foldl min s

/-- Maximum of a score list, 0 when empty. -/
def maxOfScores : List ℚ → ℚ
  | [] => 0
  | s :: rest => rest.foldl max s

/-- `EvidenceRetrievalAgent._calculate_coverage`. -/
def calculateCoverage (chunks : List EvidenceChunk)
    (images : List ImageEvidence) : CoverageStats :=
  if chunks.isEmpty then ⟨0, 0, 0, 0, 0, 0, 0⟩
  else
    let papers := ((chunks.map fun c => c.paper_title).dedup).length
    let sections := ((chunks.map fun c => c.section_title).dedup).length
    let textScores := chunks.map fun c => c.score
    let imageScores := images.map fun i => i.score
    ⟨papers, sections,
     textScores.sum / textScores.length,
     if imageScores.isEmpty then 0 else imageScores.sum / imageScores.length,
     minOfScores textScores, maxOfScores textScores,
     chunks.length + images.length⟩

/-- `EvidenceRetrievalAgent._is_evidence_sufficient`: at least 2 chunks,
average text score at least the threshold, and at least one paper. -/
def isEvidenceSufficient (chunks : List EvidenceChunk) (threshold : ℚ)
    (coverage : CoverageStats) : Bool :=
  if chunks.length < 2 then false
  else if coverage.avg_text_score < threshold then false
  else if coverage.unique_papers < 1 then false
  else true

/-- C2: with exactly `MIN_CHUNKS - 1 = 1` chunks the sufficiency gate judges
the evidence insufficient (escalation) for every threshold; with exactly
`MIN_CHUNKS = 2` chunks, average score exactly equal to the threshold and at
least one distinct source paper it proceeds — the threshold comparison is
inclusive. -/
theorem c2_sufficiency_boundary (chunks : List EvidenceChunk)
    (images : List ImageEvidence) (threshold : ℚ) :
    (chunks.length = 1 →
      isEvidenceSufficient chunks threshold
        (calculateCoverage chunks images) = false)
    ∧ (chunks.length = 2 →
       (calculateCoverage chunks images).avg_text_score = threshold →
       1 ≤ (calculateCoverage chunks images).unique_papers →
       isEvidenceSufficient chunks threshold
         (calculateCoverage chunks images) = true) := by
  constructor
  · intro h
    simp [isEvidenceSufficient, h]
  · intro h havg hup
    have h1 : ¬ chunks.length < 2 := by omega
    have h2 : ¬ (calculateCoverage chunks images).avg_text_score < threshold :=
      by rw [havg]; exact lt_irrefl _
    have h3 : ¬ (calculateCoverage chunks images).unique_papers < 1 := by omega
    simp [isEvidenceSufficient, h1, h2, h3]

/-- C2 (witness): one chunk of score 0.9 is insufficient at threshold 0.5;
two chunks of scores 0.4 and 0.6 (average exactly 0.5) from one paper are
sufficient at threshold 0.5. -/
theorem c2_witness :
    ([(⟨"t", "P1", "Methods", 1, 2, 9/10⟩ : EvidenceChunk)].length = 1
      ∧ isEvidenceSufficient [⟨"t", "P1", "Methods", 1, 2, 9/10⟩] (1/2)
          (calculateCoverage [⟨"t", "P1", "Methods", 1, 2, 9/10⟩] []) = false)
    ∧ ([(⟨"a", "P1", "Methods", 1, 2, 2/5⟩ : EvidenceChunk),
        ⟨"b", "P1", "Results", 3, 4, 3/5⟩].length = 2
      ∧ (calculateCoverage [⟨"a", "P1", "Methods", 1, 2, 2/5⟩,
          ⟨"b", "P1", "Results", 3, 4, 3/5⟩] []).avg_text_score = 1/2
      ∧ 1 ≤ (calculateCoverage [⟨"a", "P1", "Methods", 1, 2, 2/5⟩,
          ⟨"b", "P1", "Results", 3, 4, 3/5⟩] []).unique_papers
      ∧ isEvidenceSufficient [⟨"a", "P1", "Methods", 1, 2, 2/5⟩,
          ⟨"b", "P1", "Results", 3, 4, 3/5⟩] (1/2)
          (calculateCoverage [⟨"a", "P1", "Methods", 1, 2, 2/5⟩,
            ⟨"b", "P1", "Results", 3, 4, 3/5⟩] []) = true) :=
  ⟨⟨rfl, (c2_sufficiency_boundary _ _ _).1 rfl⟩,
   ⟨rfl, by norm_num [calculateCoverage], by decide,
    (c2_sufficiency_boundary _ _ _).2 rfl (by norm_num [calculateCoverage])
      (by decide)⟩⟩

/-! ## Hybrid retrieval with RRF fusion (`db/qdrant_client.py`) -/

/-- RRF smoothing constant (`settings.rrf_k`, default 60). -/
def rrf_k : ℚ := 60

/-- Dense fusion weight (`settings.dense_weight`, default 0.5). -/
def dense_weight : ℚ := 1/2

/-- Sparse fusion weight (`settings.sparse_weight`, default 0.5). -/
def sparse_weight : ℚ := 1/2

/-- Stored point payload, as written by `insert_chunks`. -/
structure Payload where
  chunk_id : String
  text : String
  paper_id : String
  paper_title : String
  section_title : String
  page_start : Nat
  page_end : Nat
deriving DecidableEq

/-- A Qdrant point as returned by `query_points`. -/
structure Point where
  id : Nat
  score : ℚ
  payload : Payload
deriving DecidableEq

/-- The `SearchResult` built from a point in `search_with_filter`. -/
def toSearchResult (p : Point) : SearchResult :=
  ⟨p.payload.text, p.score,
   ⟨p.payload.paper_id, p.payload.paper_title, p.payload.section_title,
    p.payload.page_start, p.payload.page_end⟩⟩

/-- Abstract vector index: the ranked answers of `client.query_points` for
each vector space, as a function of query vector, section filter and limit.
Index internals are out of scope; the pipeline only consumes these ranked
lists. -/
structure VectorIndex where
  queryDense : List ℚ → Option (List String) → Nat → List Point
  querySparse : List (Nat × ℚ) → Option (List String) → Nat → List Point

/-- The fused score of one candidate in `_rrf_fusion`:
`w_dense / (k + rank_dense) + w_sparse / (k + rank_sparse)`, each term
present only when the candidate appears in the corresponding ranked list. -/
def rrfScore (rankDense rankSparse : Option Nat) : ℚ :=
  (match rankDense with
   | some r => dense_weight / (rrf_k + r)
   | none => 0)
  + (match rankSparse with
     | some r => sparse_weight / (rrf_k + r)
     | none => 0)

/-- The `{point.id: rank}` entries of `_rrf_fusion`, ranks 1-based in list
order. -/
def rankEntries (results : List Point) : List (Nat × Nat) :=
  results.enum.map (fun e => (e.2.id, e.1 + 1))

/-- Dict lookup over entries built left to right, later entries
overwriting earlier ones (Python dict comprehension semantics). -/
def rankLookup (entries : List (Nat × Nat)) (pid : Nat) : Option Nat :=
  (entries.reverse.find? (fun e => e.1 == pid)).map Prod.snd

/-- The union of the id sets of both rank maps. In Python this is a set
whose iteration order is unspecified; since all candidate scores are sorted
afterwards, no theorem here depends on this order. -/
def allIds (denseEntries sparseEntries : List (Nat × Nat)) : List Nat :=
  ((denseEntries.map Prod.fst) ++ (sparseEntries.map Prod.fst)).dedup

/-- Lookup in the `point_map` dict of `_rrf_fusion`, built from
`dense_results + sparse_results` with later points overwriting earlier
ones. -/
def pointLookup (points : List Point) (pid : Nat) : Option Point :=
  points.reverse.find? (fun p => p.id == pid)

/-- `QdrantService._rrf_fusion`: score every candidate id, sort by fused
score descending (stable), truncate to `limit`, and emit the stored points
with their scores overridden by the fused score. -/
def rrfFusion (denseResults sparseResults : List Point) (limit : Nat) :
    List Point :=
  let denseRanks := rankEntries denseResults
  let sparseRanks := rankEntries sparseResults
  let scored := (allIds denseRanks sparseRanks).map (fun pid =>
    (pid, rrfScore (rankLookup denseRanks pid) (rankLookup sparseRanks pid)))
  let sorted := (scored.mergeSort (fun a b => b.2 ≤ a.2)).take limit
  sorted.filterMap (fun e =>
    (pointLookup (denseResults ++ sparseResults) e.1).map
      (fun p => { p with score := e.2 }))

/-- `QdrantService._hybrid_search`: two over-fetched queries (2 × limit)
followed by RRF fusion. -/
def hybridSearch (idx : VectorIndex) (denseVector : List ℚ)
    (sparseVector : List (Nat × ℚ)) (limit : Nat)
    (queryFilter : Option (List String)) : List Point :=
  rrfFusion (idx.queryDense denseVector queryFilter (limit * 2))
    (idx.querySparse sparseVector queryFilter (limit * 2)) limit

/-- The section filter built at the top of `search_with_filter`: drop
"Unknown", and use no filter at all when nothing (or an empty list) is
allowed. -/
def buildSectionFilter (allowedSections : Option (List String)) :
    Option (List String) :=
  match allowedSections with
  | none => none
  | some secs =>
    let filtered := secs.filter (fun s => s != "Unknown")
    if filtered.isEmpty then none else some filtered

/-- `QdrantService.search_with_filter`: hybrid search when hybrid mode is
enabled and a sparse query vector is supplied, dense-only otherwise.
`hybridEnabled` stands for `settings.enable_hybrid_search`. -/
def searchWithFilter (idx : VectorIndex) (hybridEnabled : Bool)
    (queryVector : List ℚ) (limit : Nat)
    (allowedSections : Option (List String))
    (querySparseVector : Option (List (Nat × ℚ))) : List SearchResult :=
  let qf := buildSectionFilter allowedSections
  let results :=
    if hybridEnabled then
      match querySparseVector with
      | some sv => hybridSearch idx queryVector sv limit qf
      | none => idx.queryDense queryVector qf limit
    else idx.queryDense queryVector qf limit
  results.map toSearchResult

/-- Modelled from the spec: the "plain dense ranking" — the dense-space
candidates in index order, converted to search results. Stated in the
spec's words for the C4 refinement comparison. -/
def plainDenseRanking (idx : VectorIndex) (queryVector : List ℚ)
    (limit : Nat) (allowedSections : Option (List String)) :
    List SearchResult :=
  (idx.queryDense queryVector (buildSectionFilter allowedSections)
    limit).map toSearchResult

/-- C3: if a candidate rank improves (decreases) in one list while its rank
in the other list is held fixed or stays absent, the fused RRF score does
not decrease. -/
theorem c3_rrf_monotone (r r2 : Nat) (other : Option Nat) (h : r2 ≤ r) :
    (rrfScore (some r) other ≤ rrfScore (some r2) other)
    ∧ (rrfScore other (some r) ≤ rrfScore other (some r2)) := by
  have hcast : (r2 : ℚ) ≤ (r : ℚ) := by exact_mod_cast h
  have key : ∀ w : ℚ, 0 ≤ w →
      w / (rrf_k + (r : ℚ)) ≤ w / (rrf_k + (r2 : ℚ)) := by
    intro w hw
    have h2 : (0 : ℚ) < rrf_k + (r2 : ℚ) := by
      simp only [rrf_k]; positivity
    have h3 : rrf_k + (r2 : ℚ) ≤ rrf_k + (r : ℚ) := by linarith
    gcongr
  have hd := key dense_weight (by norm_num [dense_weight])
  have hs := key sparse_weight (by norm_num [sparse_weight])
  constructor <;> cases other <;> simp only [rrfScore] <;> linarith

/-- C3 (witness): moving from dense rank 5 to dense rank 3 with sparse rank
fixed at 2 does not decrease the score, and symmetrically for the sparse
list. -/
theorem c3_witness :
    (3 ≤ 5)
    ∧ (rrfScore (some 5) (some 2) ≤ rrfScore (some 3) (some 2))
    ∧ (rrfScore (some 2) (some 5) ≤ rrfScore (some 2) (some 3)) :=
  ⟨by norm_num, (c3_rrf_monotone 5 3 (some 2) (by norm_num)).1,
   (c3_rrf_monotone 5 3 (some 2) (by norm_num)).2⟩

/-- C4: when sparse retrieval is disabled — no sparse query vector supplied,
or hybrid mode off — the output of `search_with_filter` equals the plain
dense ranking exactly: same candidates, same order, no RRF fusion. -/
theorem c4_dense_fallback (idx : VectorIndex) (hybridEnabled : Bool)
    (qv : List ℚ) (limit : Nat) (secs : Option (List String))
    (sparseQv : Option (List (Nat × ℚ)))
    (h : sparseQv = none ∨ hybridEnabled = false) :
    searchWithFilter idx hybridEnabled qv limit secs sparseQv =
      plainDenseRanking idx qv limit secs := by
  rcases h with h | h
  · subst h; cases hybridEnabled <;> rfl
  · subst h; rfl

/-- A two-point index used to witness C4 on concrete data. -/
def c4Index : VectorIndex :=
  ⟨fun _ _ limit =>
    ([⟨1, 9/10, ⟨"c1", "text one", "p1", "Paper A", "Methods", 1, 2⟩⟩,
      ⟨2, 8/10, ⟨"c2", "text two", "p2", "Paper B", "Results", 3, 4⟩⟩]).take
      limit,
   fun _ _ limit =>
    ([⟨2, 7/10, ⟨"c2", "text two", "p2", "Paper B", "Results", 3, 4⟩⟩,
      ⟨1, 6/10, ⟨"c1", "text one", "p1", "Paper A", "Methods", 1, 2⟩⟩]).take
      limit⟩

/-- C4 (witness): on the concrete two-point index with hybrid mode on but no
sparse query vector, the search output is exactly the plain dense
ranking. -/
theorem c4_witness :
    ((none : Option (List (Nat × ℚ))) = none ∨ true = false)
    ∧ searchWithFilter c4Index true [1] 5 none none =
        plainDenseRanking c4Index [1] 5 none :=
  ⟨Or.inl rfl, c4_dense_fallback c4Index true [1] 5 none none (Or.inl rfl)⟩

/-! ## Synthesizer confidence heuristic (`agents/analysis_synthesis.py`) -/

/-- The fixed uncertain phrase set of `_estimate_confidence`. -/
def uncertainPhrases : List String :=
  ["not found", "unclear", "uncertain", "cannot determine"]

/-- Whether the lower-cased answer contains an uncertain phrase. -/
def hasUncertainPhrase (answer : String) : Bool :=
  uncertainPhrases.any (fun p => strContains (toLowerStr answer) p)

/-- Whether the lower-cased answer mentions the lower-cased title of one of
the first three chunks (`chunks[:3]`). -/
def mentionsTopTitle (answer : String) (chunks : List EvidenceChunk) : Bool :=
  (chunks.take 3).any
    (fun c => strContains (toLowerStr answer) (toLowerStr c.paper_title))

/-- `AnalysisSynthesisAgent._estimate_confidence`. -/
def estimateConfidence (answer : String) (chunks : List EvidenceChunk) : ℚ :=
  if hasUncertainPhrase answer then 3/10
  else if answer.length < 200 then 3/5
  else if mentionsTopTitle answer chunks then 17/20
  else 7/10

/-- C7: the synthesizer confidence heuristic returns exactly 0.3 on an
uncertain phrase, else 0.6 on an answer shorter than 200 characters, else
0.85 when the answer mentions a top-3 chunk title, else 0.7 — tested in
this order. -/
theorem c7_confidence_heuristic (answer : String)
    (chunks : List EvidenceChunk) :
    (hasUncertainPhrase answer = true →
      estimateConfidence answer chunks = 3/10)
    ∧ (hasUncertainPhrase answer = false → answer.length < 200 →
      estimateConfidence answer chunks = 3/5)
    ∧ (hasUncertainPhrase answer = false → ¬ answer.length < 200 →
      mentionsTopTitle answer chunks = true →
      estimateConfidence answer chunks = 17/20)
    ∧ (hasUncertainPhrase answer = false → ¬ answer.length < 200 →
      mentionsTopTitle answer chunks = false →
      estimateConfidence answer chunks = 7/10) := by
  refine ⟨fun h1 => ?_, fun h1 h2 => ?_, fun h1 h2 h3 => ?_,
    fun h1 h2 h3 => ?_⟩
  · simp [estimateConfidence, h1]
  · simp [estimateConfidence, h1, h2]
  · simp [estimateConfidence, h1, h2, h3]
  · simp [estimateConfidence, h1, h2, h3]

set_option maxRecDepth 4000 in
/-- C7 (witness): each of the four bands is hit by a concrete answer:
an uncertain phrase, a short answer, a 200-character answer mentioning a
chunk title, and a 200-character answer mentioning no title. -/
theorem c7_witness :
    estimateConfidence "The requested detail was not found in the papers." []
        = 3/10
    ∧ estimateConfidence "Short answer." [] = 3/5
    ∧ estimateConfidence (String.mk (List.replicate 200 'a'))
        [⟨"t", "aaaa", "s", 1, 2, 1/2⟩] = 17/20
    ∧ estimateConfidence (String.mk (List.replicate 200 'b'))
        [⟨"t", "zzz", "s", 1, 2, 1/2⟩] = 7/10 :=
  ⟨(c7_confidence_heuristic _ _).1 (by decide),
   (c7_confidence_heuristic _ _).2.1 (by decide) (by decide),
   (c7_confidence_heuristic _ _).2.2.1 (by decide) (by decide) (by decide),
   (c7_confidence_heuristic _ _).2.2.2 (by decide) (by decide) (by decide)⟩

/-! ## Output validator (`services/guardrails_service.py`) -/

/-- The honest-refusal patterns of `_check_hallucinations`. -/
def honestPatterns : List String :=
  ["not found", "not mentioned", "not stated",
   "unclear", "not specified", "cannot determine"]

/-- Whether the lower-cased answer contains an honest-refusal pattern. -/
def hasHonestPattern (answer : String) : Bool :=
  honestPatterns.any (fun p => strContains (toLowerStr answer) p)

/-- Result of the hallucination check. -/
structure HallucinationResult where
  valid : Bool
  issues : List String
  penalty : ℚ
deriving DecidableEq

/-- `GuardrailsService._check_hallucinations`. The chunk text concatenation
built in the source is never read afterwards and is omitted here. -/
def checkHallucinations (answer : String) (chunks : List EvidenceChunk) :
    HallucinationResult :=
  if hasHonestPattern answer then ⟨true, [], 0⟩
  else
    let issues :=
      if 2000 < answer.length ∧ chunks.length < 3
      then ["Very long answer from limited evidence"] else []
    let penalty : ℚ :=
      if 2000 < answer.length ∧ chunks.length < 3 then 1/10 else 0
    ⟨issues.isEmpty, issues, penalty⟩

/-- Citation input to the validator (`Citation` Pydantic model fields). -/
structure RawCitation where
  paper_title : String
  page_start : Int
  page_end : Int
deriving DecidableEq

/-- Raw LLM output submitted to the validator (`ValidatedAnswer` fields). -/
structure RawOutput where
  answer : String
  citations : List RawCitation
  confidence : ℚ
  refused : Bool
deriving DecidableEq

/-- Per-citation constraints of the `Citation` model: both pages at least 1
and `page_end >= page_start`. -/
def citationOk (c : RawCitation) : Bool :=
  decide (1 ≤ c.page_start) && decide (1 ≤ c.page_end)
    && decide (c.page_start ≤ c.page_end)

/-- The `ValidatedAnswer` schema enforced by `_validate_schema`: answer
length within [50, 5000] characters, at least one citation, every citation
well formed, confidence within [0, 1]. -/
def schemaOk (o : RawOutput) : Bool :=
  decide (50 ≤ o.answer.length) && decide (o.answer.length ≤ 5000)
    && decide (1 ≤ o.citations.length) && o.citations.all citationOk
    && decide (0 ≤ o.confidence) && decide (o.confidence ≤ 1)

/-- The validation error strings of `_validate_schema`; the exact Pydantic
message texts are modelled approximately, and no theorem depends on them. -/
def schemaErrors (o : RawOutput) : List String :=
  (if o.answer.length < 50
    then ["answer: too short (minimum 50 characters)"] else [])
  ++ (if 5000 < o.answer.length
    then ["answer: too long (maximum 5000 characters)"] else [])
  ++ (if o.citations.length < 1 then ["citations: at least one required"] else [])
  ++ (if !o.citations.all citationOk then ["citations: invalid page range"] else [])
  ++ (if o.confidence < 0
    then ["confidence: must be at least 0.0"] else [])
  ++ (if 1 < o.confidence
    then ["confidence: must be at most 1.0"] else [])

/-- Result of citation grounding. -/
structure GroundingResult where
  valid : Bool
  issues : List String
  confidence_penalty : ℚ
deriving DecidableEq

/-- The fuzzy match of `_validate_citation_grounding`: case-insensitive
substring containment in either direction against some chunk paper title. -/
def citationMatched (chunkPapers : List String) (c : RawCitation) : Bool :=
  chunkPapers.any (fun cp =>
    strContains (toLowerStr cp) (toLowerStr c.paper_title)
    || strContains (toLowerStr c.paper_title) (toLowerStr cp))

/-- The grounding issue string; the source wraps the title in single
quotes, omitted here. -/
def groundingIssue (c : RawCitation) : String :=
  "Citation " ++ c.paper_title ++ " not found in retrieved papers"

/-- `GuardrailsService._validate_citation_grounding`: each unmatched
citation (when any chunk papers exist) adds an issue and a 0.15 penalty;
the total penalty is capped at 0.5. -/
def validateCitationGrounding (citations : List RawCitation)
    (chunks : List EvidenceChunk) : GroundingResult :=
  if citations.isEmpty then ⟨false, ["No citations provided"], 2/5⟩
  else
    let chunkPapers := ((chunks.map fun c => c.paper_title)).dedup
    let unmatched := citations.filter (fun c =>
      !citationMatched chunkPapers c && !chunkPapers.isEmpty)
    let issues := unmatched.map groundingIssue
    ⟨issues.isEmpty, issues, min ((3/20 : ℚ) * unmatched.length) (1/2)⟩

/-- Outcome of `validate_and_enforce`: either a valid result carrying the
(possibly penalty-reduced) confidence, or a human-review escalation with
stage "guardrails". -/
inductive ValidateResult where
  | valid (answer : String) (citations : List RawCitation)
      (confidence : ℚ) (refused : Bool)
  | humanReview (reason : String) (errors : List String)
deriving DecidableEq

/-- The `status` field of the returned dict. -/
def vrStatus : ValidateResult → String
  | .valid _ _ _ _ => "valid"
  | .humanReview _ _ => "human_review_required"

/-- The `reason` field of the returned dict (absent on valid results). -/
def vrReason : ValidateResult → Option String
  | .valid _ _ _ _ => none
  | .humanReview r _ => some r

/-- `GuardrailsService.validate_and_enforce`: schema validation, citation
grounding with clamped penalty, hallucination penalty, final confidence
gate at 0.5. -/
def validateAndEnforce (llmOutput : RawOutput)
    (chunks : List EvidenceChunk) : ValidateResult :=
  if !schemaOk llmOutput then
    .humanReview "Schema validation failed after retry" (schemaErrors llmOutput)
  else
    let grounding := validateCitationGrounding llmOutput.citations chunks
    let conf1 :=
      if !grounding.valid
      then max 0 (llmOutput.confidence - grounding.confidence_penalty)
      else llmOutput.confidence
    if !grounding.valid && decide (conf1 < 1/2) then
      .humanReview "Citation grounding failed - low confidence" grounding.issues
    else
      let hallucination := checkHallucinations llmOutput.answer chunks
      let conf2 :=
        if !hallucination.valid then conf1 - hallucination.penalty else conf1
      if conf2 < 1/2 then
        .humanReview ("Low confidence after validation: " ++ fmt2 conf2)
          ["Confidence below threshold (0.5)"]
      else .valid llmOutput.answer llmOutput.citations conf2 llmOutput.refused

/-- The `stage` field of the returned dict: escalations created by
`_create_hitl_response` always carry stage "guardrails". -/
def vrStage : ValidateResult → Option String
  | .valid _ _ _ _ => none
  | .humanReview _ _ => some "guardrails"

/-- C8: an answer containing an honest-refusal phrase passes the
hallucination check with zero penalty, regardless of answer length and
chunk count; without such a phrase, the 0.1 penalty is applied exactly when
the answer exceeds 2000 characters with fewer than 3 chunks. -/
theorem c8_honest_refusal (answer : String) (chunks : List EvidenceChunk) :
    (hasHonestPattern answer = true →
      checkHallucinations answer chunks = ⟨true, [], 0⟩)
    ∧ (hasHonestPattern answer = false →
      2000 < answer.length → chunks.length < 3 →
      checkHallucinations answer chunks =
        ⟨false, ["Very long answer from limited evidence"], 1/10⟩)
    ∧ (hasHonestPattern answer = false →
      ¬ (2000 < answer.length ∧ chunks.length < 3) →
      checkHallucinations answer chunks = ⟨true, [], 0⟩) := by
  refine ⟨fun h1 => ?_, fun h1 h2 h3 => ?_, fun h1 h2 => ?_⟩
  · simp [checkHallucinations, h1]
  · simp [checkHallucinations, h1, h2, h3]
  · simp [checkHallucinations, h1, h2]

/-- C8 (witness): a 2128-character answer starting with "not found", with
zero chunks supplied, is still valid with zero penalty. -/
theorem c8_witness :
    hasHonestPattern (String.mk (("not found in provided papers").data
      ++ List.replicate 2100 'x')) = true
    ∧ 2000 < (String.mk (("not found in provided papers").data
      ++ List.replicate 2100 'x')).length
    ∧ checkHallucinations (String.mk (("not found in provided papers").data
      ++ List.replicate 2100 'x')) [] = ⟨true, [], 0⟩ :=
  ⟨by decide,
   by
    show 2000 < (("not found in provided papers").data
      ++ List.replicate 2100 'x').length
    rw [List.length_append, List.length_replicate]
    have h28 : (("not found in provided papers").data).length = 28 := by decide
    omega,
   (c8_honest_refusal _ _).1 (by decide)⟩

theorem grounding_penalty_nonneg (citations : List RawCitation)
    (chunks : List EvidenceChunk) :
    0 ≤ (validateCitationGrounding citations chunks).confidence_penalty := by
  by_cases h : citations.isEmpty
  · simp only [validateCitationGrounding, h, if_true]
    norm_num
  · simp only [validateCitationGrounding, h, Bool.false_eq_true, if_false]
    refine le_min ?_ ?_
    · positivity
    · norm_num

theorem hallucination_penalty_nonneg (answer : String)
    (chunks : List EvidenceChunk) :
    0 ≤ (checkHallucinations answer chunks).penalty := by
  by_cases h : hasHonestPattern answer
  · simp [checkHallucinations, h]
  · simp only [checkHallucinations, h, Bool.false_eq_true, if_false]
    split <;> norm_num

theorem schemaOk_confidence_bounds (o : RawOutput) (h : schemaOk o = true) :
    0 ≤ o.confidence ∧ o.confidence ≤ 1 := by
  simp only [schemaOk, Bool.and_eq_true, decide_eq_true_eq] at h
  exact ⟨h.1.2, h.2⟩

/-- Core invariant of `validate_and_enforce`: every valid return carries a
confidence within [0.5, 1]. The schema bounds give an initial confidence in
[0, 1]; the grounding penalty is clamped at 0 and both penalties are
nonnegative, and any post-penalty confidence below 0.5 escalates instead of
returning. -/
theorem guardrails_valid_bounds (o : RawOutput) (chunks : List EvidenceChunk)
    (a : String) (cs : List RawCitation) (conf : ℚ) (rf : Bool)
    (h : validateAndEnforce o chunks = ValidateResult.valid a cs conf rf) :
    1/2 ≤ conf ∧ conf ≤ 1 := by
  by_cases hs : schemaOk o = true
  · obtain ⟨hc0, hc1⟩ := schemaOk_confidence_bounds o hs
    have hgp := grounding_penalty_nonneg o.citations chunks
    have hhp := hallucination_penalty_nonneg o.answer chunks
    simp only [validateAndEnforce, hs, Bool.not_true, Bool.false_eq_true,
      if_false] at h
    set g := validateCitationGrounding o.citations chunks with hg
    set hal := checkHallucinations o.answer chunks with hhal
    by_cases hv : g.valid = true
    · simp only [hv, Bool.not_true, Bool.false_and, Bool.false_eq_true,
        if_false] at h
      by_cases hw : hal.valid = true
      · simp only [hw, Bool.not_true, Bool.false_eq_true, if_false] at h
        by_cases hlt : o.confidence < 1/2
        · simp only [hlt, if_true] at h
          exact absurd h (by simp)
        · simp only [hlt, if_false] at h
          injection h with h1 h2 h3 h4
          exact ⟨by rw [← h3]; linarith [not_lt.mp hlt], by rw [← h3]; linarith⟩
      · have hw2 : hal.valid = false := by
          cases hb : hal.valid
          · rfl
          · exact absurd hb hw
        simp only [hw2, Bool.not_false, if_true] at h
        by_cases hlt : o.confidence - hal.penalty < 1/2
        · simp only [hlt, if_true] at h
          exact absurd h (by simp)
        · simp only [hlt, if_false] at h
          injection h with h1 h2 h3 h4
          exact ⟨by rw [← h3]; linarith [not_lt.mp hlt],
                 by rw [← h3]; linarith⟩
    · have hv2 : g.valid = false := by
        cases hb : g.valid
        · rfl
        · exact absurd hb hv
      simp only [hv2, Bool.not_false, Bool.true_and, if_true,
        decide_eq_true_eq] at h
      have hm0 : (0 : ℚ) ≤ max 0 (o.confidence - g.confidence_penalty) :=
        le_max_left _ _
      have hm1 : max 0 (o.confidence - g.confidence_penalty) ≤ 1 :=
        max_le (by norm_num) (by linarith)
      by_cases hlt1 : max 0 (o.confidence - g.confidence_penalty) < 1/2
      · simp only [hlt1, if_true] at h
        exact absurd h (by simp)
      · simp only [hlt1, if_false] at h
        by_cases hw : hal.valid = true
        · simp only [hw, Bool.not_true, Bool.false_eq_true, if_false] at h
          by_cases hlt : max 0 (o.confidence - g.confidence_penalty) < 1/2
          · exact absurd hlt hlt1
          · simp only [hlt, if_false] at h
            injection h with h1 h2 h3 h4
            exact ⟨by rw [← h3]; linarith [not_lt.mp hlt1],
                   by rw [← h3]; linarith⟩
        · have hw2 : hal.valid = false := by
            cases hb : hal.valid
            · rfl
            · exact absurd hb hw
          simp only [hw2, Bool.not_false, if_true] at h
          by_cases hlt : max 0 (o.confidence - g.confidence_penalty)
              - hal.penalty < 1/2
          · simp only [hlt, if_true] at h
            exact absurd h (by simp)
          · simp only [hlt, if_false] at h
            injection h with h1 h2 h3 h4
            exact ⟨by rw [← h3]; linarith [not_lt.mp hlt],
                   by rw [← h3]; linarith⟩
  · have hs2 : schemaOk o = false := by
      cases hb : schemaOk o
      · rfl
      · exact absurd hb hs
    simp [validateAndEnforce, hs2] at h

/-- A 76-character answer free of refusal phrases, used as a concrete
validator input. -/
def exampleAnswer : String :=
  "This study applies method X to dataset Y and reports strong accuracy gains."

/-- A citation matching the example chunk below. -/
def exampleCitation : RawCitation := ⟨"Paper A", 1, 2⟩

/-- A well-formed validator input with confidence 0.9. -/
def exampleOutput : RawOutput := ⟨exampleAnswer, [exampleCitation], 9/10, false⟩

/-- One retrieved chunk from "Paper A". -/
def exampleChunks : List EvidenceChunk :=
  [⟨"chunk text", "Paper A", "Methods", 1, 2, 1/2⟩]

/-- The validator accepts the example input unchanged: schema passes,
grounding matches, no hallucination penalty, confidence 0.9 at least 0.5. -/
theorem validateAndEnforce_example :
    validateAndEnforce exampleOutput exampleChunks
      = ValidateResult.valid exampleAnswer [exampleCitation] (9/10) false := by
  have hschema : schemaOk exampleOutput = true := by
    simp only [schemaOk, Bool.and_eq_true, decide_eq_true_eq]
    refine ⟨⟨⟨⟨⟨?_, ?_⟩, ?_⟩, ?_⟩, ?_⟩, ?_⟩
    · decide
    · decide
    · decide
    · decide
    · norm_num [exampleOutput]
    · norm_num [exampleOutput]
  have hgv : (validateCitationGrounding exampleOutput.citations
      exampleChunks).valid = true := by decide
  have hhv : (checkHallucinations exampleOutput.answer
      exampleChunks).valid = true := by decide
  have hlt : ¬ (exampleOutput.confidence < 1/2) := by norm_num [exampleOutput]
  simp only [validateAndEnforce, hschema, hgv, hhv, Bool.not_true,
    Bool.false_and, Bool.false_eq_true, if_false, hlt]
  rfl

/-- C10: a result returned by `validate_and_enforce` with status "valid"
always carries a confidence in [0.5, 1], and every non-valid return is a
human-review escalation with stage "guardrails". -/
theorem c10_valid_confidence_bounds (o : RawOutput)
    (chunks : List EvidenceChunk) :
    (∀ a cs conf rf,
      validateAndEnforce o chunks = ValidateResult.valid a cs conf rf →
      1/2 ≤ conf ∧ conf ≤ 1)
    ∧ (vrStatus (validateAndEnforce o chunks) = "valid"
      ∨ vrStage (validateAndEnforce o chunks) = some "guardrails") := by
  constructor
  · intro a cs conf rf h
    exact guardrails_valid_bounds o chunks a cs conf rf h
  · cases hres : validateAndEnforce o chunks
    · exact Or.inl rfl
    · exact Or.inr rfl

/-- C10 (witness): the example input yields a valid result with confidence
0.9, which lies within [0.5, 1]. -/
theorem c10_witness :
    validateAndEnforce exampleOutput exampleChunks
      = ValidateResult.valid exampleAnswer [exampleCitation] (9/10) false
    ∧ (1/2 ≤ (9/10 : ℚ) ∧ (9/10 : ℚ) ≤ 1) :=
  ⟨validateAndEnforce_example,
   (c10_valid_confidence_bounds exampleOutput exampleChunks).1 exampleAnswer
     [exampleCitation] (9/10) false validateAndEnforce_example⟩

/-- The example input with its confidence pushed out of range to 1.5. -/
def c1BadOutput : RawOutput := ⟨exampleAnswer, [exampleCitation], 3/2, false⟩

/-- C1 (counterexample): submitting a result with confidence 1.5 — out of
[0,1] — makes `validate_and_enforce` fail schema validation and escalate to
human review; the confidence is not clamped into range, contradicting the
claim that out-of-range confidence is clamped rather than failing
validation. -/
theorem c1_counterexample :
    vrStatus (validateAndEnforce c1BadOutput exampleChunks)
      = "human_review_required"
    ∧ vrReason (validateAndEnforce c1BadOutput exampleChunks)
      = some "Schema validation failed after retry" := by
  have h32 : ¬ ((3/2 : ℚ) ≤ 1) := by norm_num
  have hbad : schemaOk c1BadOutput = false := by
    have hd : decide (c1BadOutput.confidence ≤ 1) = false :=
      decide_eq_false (by norm_num [c1BadOutput])
    simp [schemaOk, hd]
  constructor <;> simp [validateAndEnforce, hbad, vrStatus, vrReason]

/-- C1 (amended): an input confidence outside [0,1] causes schema-validation
failure and a human-review escalation (which carries no confidence), rather
than being clamped; and every confidence actually returned with status
"valid" lies within [0,1] — in particular stacked grounding and
hallucination penalties never yield a returned confidence below 0.0. -/
theorem c1_confidence_range (o : RawOutput) (chunks : List EvidenceChunk) :
    ((o.confidence < 0 ∨ 1 < o.confidence) →
      vrStatus (validateAndEnforce o chunks) = "human_review_required"
      ∧ vrReason (validateAndEnforce o chunks)
          = some "Schema validation failed after retry")
    ∧ (∀ a cs conf rf,
        validateAndEnforce o chunks = ValidateResult.valid a cs conf rf →
        0 ≤ conf ∧ conf ≤ 1) := by
  constructor
  · intro hout
    have hbad : schemaOk o = false := by
      rcases hout with hlt | hgt
      · have hd : decide (0 ≤ o.confidence) = false :=
          decide_eq_false (not_le.mpr hlt)
        simp [schemaOk, hd]
      · have hd : decide (o.confidence ≤ 1) = false :=
          decide_eq_false (not_le.mpr hgt)
        simp [schemaOk, hd]
    constructor <;> simp [validateAndEnforce, hbad, vrStatus, vrReason]
  · intro a cs conf rf h
    have hb := guardrails_valid_bounds o chunks a cs conf rf h
    exact ⟨by linarith [hb.1], hb.2⟩

/-- C1 (witness): the out-of-range input escalates with the schema-failure
reason, and the in-range example input returns confidence 0.9 within
[0,1]. -/
theorem c1_witness :
    (vrStatus (validateAndEnforce c1BadOutput exampleChunks)
        = "human_review_required"
      ∧ vrReason (validateAndEnforce c1BadOutput exampleChunks)
        = some "Schema validation failed after retry")
    ∧ (0 ≤ (9/10 : ℚ) ∧ (9/10 : ℚ) ≤ 1) :=
  ⟨(c1_confidence_range c1BadOutput exampleChunks).1
      (Or.inr (by norm_num [c1BadOutput])),
   (c1_confidence_range exampleOutput exampleChunks).2 exampleAnswer
      [exampleCitation] (9/10) false validateAndEnforce_example⟩

end RPIS
